import Mathlib

/-!
# Verification of the SARndbox remote-client grid transport

Shallow embedding of the `RemoteClient` / `SandboxClient` classes of the
Augmented Reality Sandbox repository.  Machine floats (`GridScalar = float`)
are modelled as rationals, `Pixel` (16-bit quantized samples) as naturals,
and the per-session state of `RemoteClient` as an explicit structure that the
operations (`processUpdate`, `unquantizeGrids`, `lockNewGrids`, the `calc*`
queries) transform functionally.  The Huffman codec internals
(`IntraFrameDecompressor` / `InterFrameDecompressor`) and the Vrui library
classes (`Threads::TripleBuffer`, `Comm::TCPPipe`) are not part of the
available sources and are modelled from the specification, as noted on the
corresponding definitions.
-/

namespace SARndbox

/-- Quantized 16-bit grid sample (`Pixel`, an unsigned 16-bit integer). -/
abbrev Pixel := ℕ

/-- Scalar grid values (`RemoteClient::GridScalar`, a C++ `float`, modelled
as a rational number). -/
abbrev GridScalar := ℚ

/-- Vrui `Math::clamp` on scalars: clamp `v` to the interval `[lo, hi]`. -/
def clampS (v lo hi : ℚ) : ℚ :=
  if v < lo then lo else if v > hi then hi else v

/-- Vrui `Math::clamp` on integers: clamp `v` to the interval `[lo, hi]`. -/
def clampI (v lo hi : ℤ) : ℤ :=
  if v < lo then lo else if v > hi then hi else v

/-- `RemoteClient::GridBuffers`: a triplet of unquantized property grids,
stored in row-major order. -/
structure GridBuffers where
  bathymetry : List GridScalar
  waterLevel : List GridScalar
  snowHeight : List GridScalar
deriving DecidableEq, Repr

/-- Modelled from the spec: Vrui `Threads::TripleBuffer` (external library,
not part of the available sources).  Three value slots; `lockedBuffer` is the
slot the reader currently holds, `mostRecentBuffer` the most recently posted
slot. -/
structure TripleBuffer (α : Type) where
  buffer : Fin 3 → α
  lockedBuffer : Fin 3
  mostRecentBuffer : Fin 3

/-- Modelled from the spec: the slot `startNewValue` hands to the writer,
chosen distinct from both the reader-locked slot and the most recently
posted slot. -/
def TripleBuffer.nextSlot {α : Type} (tb : TripleBuffer α) : Fin 3 :=
  if tb.lockedBuffer + 1 = tb.mostRecentBuffer then tb.lockedBuffer + 2
  else tb.lockedBuffer + 1

/-- Writing a complete value into slot `i` of the triple buffer. -/
def TripleBuffer.writeSlot {α : Type} (tb : TripleBuffer α) (i : Fin 3) (v : α) :
    TripleBuffer α :=
  { tb with buffer := Function.update tb.buffer i v }

/-- Modelled from the spec: `postNewValue` marks slot `i` as the most
recently posted value. -/
def TripleBuffer.postSlot {α : Type} (tb : TripleBuffer α) (i : Fin 3) :
    TripleBuffer α :=
  { tb with mostRecentBuffer := i }

/-- A complete publish: obtain the fresh slot, fill it with the complete
value `v`, then post it. -/
def TripleBuffer.postNewValue {α : Type} (tb : TripleBuffer α) (v : α) :
    TripleBuffer α :=
  (tb.writeSlot tb.nextSlot v).postSlot tb.nextSlot

/-- Modelled from the spec: `lockNewValue` moves the reader's lock to the
most recently posted slot; returns whether a newer value was available. -/
def TripleBuffer.lockNewValue {α : Type} (tb : TripleBuffer α) :
    Bool × TripleBuffer α :=
  if tb.lockedBuffer = tb.mostRecentBuffer then (false, tb)
  else (true, { tb with lockedBuffer := tb.mostRecentBuffer })

/-- `getLockedValue`: the value in the reader's locked slot. -/
def TripleBuffer.getLockedValue {α : Type} (tb : TripleBuffer α) : α :=
  tb.buffer tb.lockedBuffer

/-- `Size::volume()`: number of samples of a `width × height` grid. -/
def volume (sz : ℕ × ℕ) : ℕ := sz.1 * sz.2

/-- Per-session state of `RemoteClient` (RemoteClient.h): fixed geometry
established at handshake, the pair of quantized intermediate buffers per
grid kind, the index of the current intermediate buffer, the triple buffer
of unquantized grids, and the incoming stream.  The wire is modelled as the
list of per-grid frames still to be decoded (the Huffman bitstream layer is
not part of the available sources). -/
structure ClientState where
  gridSize : ℕ × ℕ
  cellSize : ℚ × ℚ
  bathymetrySize : ℕ × ℕ
  elevationRange : ℚ × ℚ
  bathymetry : Fin 2 → List Pixel
  waterLevel : Fin 2 → List Pixel
  snowHeight : Fin 2 → List Pixel
  currentBuffer : Fin 2
  grids : TripleBuffer GridBuffers
  pipe : List (List ℕ)

/-- The affine unquantization applied to each pixel by
`RemoteClient::unquantizeGrids`: `GridScalar(*qPtr)*eScale+eOffset` with
`eScale = (elevationRange[1]-elevationRange[0])/65535` and
`eOffset = elevationRange[0]`. -/
def unquantizePixel (er : ℚ × ℚ) (p : Pixel) : GridScalar :=
  (p : ℚ) * ((er.2 - er.1) / 65535) + er.1

/-- `RemoteClient::unquantizeGrids`: start a new triple-buffer slot, fill its
three grids with the unquantized current quantized grids, then post it. -/
def unquantizeGrids (s : ClientState) : ClientState :=
  let gb : GridBuffers :=
    { bathymetry := (s.bathymetry s.currentBuffer).map (unquantizePixel s.elevationRange)
      waterLevel := (s.waterLevel s.currentBuffer).map (unquantizePixel s.elevationRange)
      snowHeight := (s.snowHeight s.currentBuffer).map (unquantizePixel s.elevationRange) }
  { s with grids := s.grids.postNewValue gb }

/-- Modelled from the spec: `InterFrameDecompressor::decompressFrame` (codec
sources unavailable).  Decodes `n = width*height` samples: each decoded
sample is the stored previous sample plus the decoded delta, in 16-bit pixel
arithmetic. -/
def interDecode (n : ℕ) (prev delta : List ℕ) : List Pixel :=
  (List.range n).map fun i => (prev.getD i 0 + delta.getD i 0) % 65536

/-- Modelled from the spec: `IntraFrameDecompressor::decompressFrame` (codec
sources unavailable).  Decodes `n = width*height` absolute quantized
samples carried by the frame itself. -/
def intraDecode (n : ℕ) (frame : List ℕ) : List Pixel :=
  (List.range n).map fun i => frame.getD i 0 % 65536

/-- `RemoteClient::processUpdate`: decode one inter-coded triplet in the
fixed order bathymetry, water level, snow height, each using the stored
previous quantized grid (`currentBuffer`) as decode reference and writing
into the other intermediate buffer; flip `currentBuffer` to the just-written
buffer; then unquantize and publish.  Fails (`none`) when the stream does
not hold a complete triplet. -/
def processUpdate (s : ClientState) : Option ClientState :=
  match s.pipe with
  | fb :: fw :: fs :: rest =>
    let newBuffer : Fin 2 := 1 - s.currentBuffer
    let s1 : ClientState :=
      { s with
        bathymetry := Function.update s.bathymetry newBuffer
          (interDecode (volume s.bathymetrySize) (s.bathymetry s.currentBuffer) fb)
        waterLevel := Function.update s.waterLevel newBuffer
          (interDecode (volume s.gridSize) (s.waterLevel s.currentBuffer) fw)
        snowHeight := Function.update s.snowHeight newBuffer
          (interDecode (volume s.gridSize) (s.snowHeight s.currentBuffer) fs)
        currentBuffer := newBuffer
        pipe := rest }
    some (unquantizeGrids s1)
  | _ => none

/-- `RemoteClient::lockNewGrids`: lock the most recently received grids;
returns whether they were updated since the last call. -/
def lockNewGrids (s : ClientState) : Bool × ClientState :=
  ((s.grids.lockNewValue).1, { s with grids := (s.grids.lockNewValue).2 })

/-- The 4-byte endianness token the client writes during connect
(`pipe->write<Misc::UInt32>(0x12345678U)`). -/
def sentToken : ℕ := 0x12345678

/-- The endianness negotiation of `RemoteClient::RemoteClient`: the server's
reply selects swap-on-read (`some true`), no swapping (`some false`), or a
fatal connect error (`none`). -/
def negotiateSwap (token : ℕ) : Option Bool :=
  if token = 0x78563412 then some true
  else if token ≠ 0x12345678 then none
  else some false

/-- `gridSize[i]-1` as computed by the constructor in unsigned 32-bit
arithmetic (`bathymetrySize[i]=gridSize[i]-1` on `Misc::UInt32` values). -/
def wrapSub1 (g : ℕ) : ℕ := (g + 4294967295) % 4294967296

/-- `RemoteClient::RemoteClient` after the TCP connection is up: negotiate
endianness, record the geometry sent by the server, size the buffers, decode
the initial intra-coded triplet into intermediate buffer 0, and publish the
first unquantized triplet.  The unread intermediate buffer 1 starts as
zeroed storage (it is written before it is ever read).  `tb0` is the initial
(unpublished) content of the triple buffer slots. -/
def connect (token : ℕ) (gs : ℕ × ℕ) (cs : ℚ × ℚ) (er : ℚ × ℚ)
    (fb fw fs : List ℕ) (rest : List (List ℕ)) (tb0 : TripleBuffer GridBuffers) :
    Option ClientState :=
  match negotiateSwap token with
  | none => none
  | some _ =>
    let bsize : ℕ × ℕ := (wrapSub1 gs.1, wrapSub1 gs.2)
    let s : ClientState :=
      { gridSize := gs
        cellSize := cs
        bathymetrySize := bsize
        elevationRange := er
        bathymetry := Function.update (fun _ => List.replicate (volume bsize) 0) 0
          (intraDecode (volume bsize) fb)
        waterLevel := Function.update (fun _ => List.replicate (volume gs) 0) 0
          (intraDecode (volume gs) fw)
        snowHeight := Function.update (fun _ => List.replicate (volume gs) 0) 0
          (intraDecode (volume gs) fs)
        currentBuffer := 0
        grids := tb0
        pipe := rest }
    some (unquantizeGrids s)

/-- The world-to-grid coordinate conversion at the head of each `calc*`
query: `x/cellSize[i] - offset`. -/
def toGridCoord (cs off x : ℚ) : ℚ := x / cs - off

/-- The origin offset the vertex-centered bathymetry grid subtracts
(`dx = x/cellSize[0] - GridScalar(1)` in `calcBathymetry`). -/
def bathymetryOffset : ℚ := 1

/-- The origin offset the cell-centered water-level and snow-height grids
subtract (`dx = x/cellSize[0] - GridScalar(0.5)` in `calcWaterLevel` and
`calcSnowHeight`). -/
def cellCenteredOffset : ℚ := 1 / 2

/-- The clamped cell index of one axis:
`Math::clamp(int(Math::floor(d)), 0, dim-2)`. -/
def cellIndex (dim : ℕ) (d : ℚ) : ℤ := clampI ⌊d⌋ 0 ((dim : ℤ) - 2)

/-- The clamped fractional interpolation weight of one axis:
`Math::clamp(d - GridScalar(g), 0, 1)`. -/
def cellWeight (dim : ℕ) (d : ℚ) : ℚ :=
  clampS (d - (cellIndex dim d : ℚ)) 0 1

/-- Shared body of `calcBathymetry`, `calcWaterLevel` and `calcSnowHeight`
(the three methods are verbatim copies of one another except for the grid,
its size, and the origin offset): convert to grid coordinates, clamp cell
index and weight per axis, and bilinearly blend the 2×2 stencil rooted at
`gy*size[0]+gx`. -/
def gridInterp (grid : List GridScalar) (size : ℕ × ℕ) (cs : ℚ × ℚ) (off : ℚ)
    (x y : ℚ) : GridScalar :=
  let gx := cellIndex size.1 (toGridCoord cs.1 off x)
  let dx := cellWeight size.1 (toGridCoord cs.1 off x)
  let gy := cellIndex size.2 (toGridCoord cs.2 off y)
  let dy := cellWeight size.2 (toGridCoord cs.2 off y)
  let base := gy.toNat * size.1 + gx.toNat
  let b0 := grid.getD base 0 * (1 - dx) + grid.getD (base + 1) 0 * dx
  let b1 := grid.getD (base + size.1) 0 * (1 - dx) +
    grid.getD (base + size.1 + 1) 0 * dx
  b0 * (1 - dy) + b1 * dy

/-- `RemoteClient::calcBathymetry`: bilinear interpolation of the currently
locked vertex-centered bathymetry grid. -/
def calcBathymetry (s : ClientState) (x y : ℚ) : GridScalar :=
  gridInterp (s.grids.getLockedValue).bathymetry s.bathymetrySize s.cellSize
    bathymetryOffset x y

/-- `RemoteClient::calcWaterLevel`: bilinear interpolation of the currently
locked cell-centered water level grid. -/
def calcWaterLevel (s : ClientState) (x y : ℚ) : GridScalar :=
  gridInterp (s.grids.getLockedValue).waterLevel s.gridSize s.cellSize
    cellCenteredOffset x y

/-- `RemoteClient::calcSnowHeight`: bilinear interpolation of the currently
locked cell-centered snow height grid. -/
def calcSnowHeight (s : ClientState) (x y : ℚ) : GridScalar :=
  gridInterp (s.grids.getLockedValue).snowHeight s.gridSize s.cellSize
    cellCenteredOffset x y

/-- `RemoteClient::getDomain`: valid extents of the cell-centered grids,
per axis `[0.5*cellSize[i], (gridSize[i]-0.5)*cellSize[i]]`, returned as
(min, max) corner pairs. -/
def getDomain (s : ClientState) : (ℚ × ℚ) × (ℚ × ℚ) :=
  (((1 / 2) * s.cellSize.1, (1 / 2) * s.cellSize.2),
   (((s.gridSize.1 : ℚ) - 1 / 2) * s.cellSize.1,
    ((s.gridSize.2 : ℚ) - 1 / 2) * s.cellSize.2))

/-- `RemoteClient::getBathymetryDomain`: valid extents of the vertex-centered
bathymetry grid, per axis `[cellSize[i], bathymetrySize[i]*cellSize[i]]`. -/
def getBathymetryDomain (s : ClientState) : (ℚ × ℚ) × (ℚ × ℚ) :=
  ((s.cellSize.1, s.cellSize.2),
   ((s.bathymetrySize.1 : ℚ) * s.cellSize.1,
    (s.bathymetrySize.2 : ℚ) * s.cellSize.2))

/-- Consumer-side state of `SandboxClient` relevant to connection handling:
whether the connection is up, whether the server-message I/O listener is
registered with the event dispatcher, and how many viewer-pose messages have
been sent. -/
structure SandboxClient where
  connected : Bool
  listenerRegistered : Bool
  sentViewerMessages : ℕ
deriving DecidableEq, Repr

/-- `SandboxClient::serverMessageCallback`: let the remote client process
the update; if that fails (`updateOk = false`), remove the I/O event
listener and clear the connected flag.  The failed update is not retried. -/
def serverMessageCallback (sc : SandboxClient) (updateOk : Bool) : SandboxClient :=
  if updateOk then sc
  else { sc with listenerRegistered := false, connected := false }

/-- The networking part of `SandboxClient::frame`: only while `connected`,
send one viewer-pose message; a send failure clears the connected flag. -/
def frameSend (sc : SandboxClient) (sendOk : Bool) : SandboxClient :=
  if sc.connected then
    if sendOk then { sc with sentViewerMessages := sc.sentViewerMessages + 1 }
    else { sc with connected := false }
  else sc

/-- Events affecting the consumer's connection state: a frame-loop
iteration, or a socket-readiness notification (delivered only while the
listener is registered). -/
inductive SandboxEvent where
  | frame (sendOk : Bool)
  | serverMessage (updateOk : Bool)
deriving DecidableEq, Repr

/-- One consumer-side step: `frame` runs the frame loop's networking part;
`serverMessage` runs the readiness callback when the listener is still
registered and is dropped otherwise. -/
def sandboxStep (sc : SandboxClient) : SandboxEvent → SandboxClient
  | .frame ok => frameSend sc ok
  | .serverMessage ok =>
    if sc.listenerRegistered then serverMessageCallback sc ok else sc

/-- Run a sequence of consumer-side events. -/
def runSandbox (sc : SandboxClient) : List SandboxEvent → SandboxClient
  | [] => sc
  | e :: evs => runSandbox (sandboxStep sc e) evs

/-- Events on the triple buffer of grids: the network thread publishing a
complete triplet, or the consumer locking the latest triplet. -/
inductive GridEvent where
  | publish (v : GridBuffers)
  | lock

/-- One triple-buffer step. -/
def tbStep (tb : TripleBuffer GridBuffers) : GridEvent → TripleBuffer GridBuffers
  | .publish v => tb.postNewValue v
  | .lock => (tb.lockNewValue).2

/-- Run a sequence of triple-buffer events. -/
def runGridEvents (tb : TripleBuffer GridBuffers) :
    List GridEvent → TripleBuffer GridBuffers
  | [] => tb
  | e :: evs => runGridEvents (tbStep tb e) evs

/-- The complete triplets published during a sequence of events. -/
def publishedValues : List GridEvent → List GridBuffers
  | [] => []
  | .publish v :: evs => v :: publishedValues evs
  | .lock :: evs => publishedValues evs

/-! ## Helper lemmas and concrete fixtures -/

/-- An empty initial triple buffer used for concrete evaluations. -/
def tbInit : TripleBuffer GridBuffers :=
  { buffer := fun _ => ⟨[], [], []⟩, lockedBuffer := 0, mostRecentBuffer := 0 }

/-- A small concrete session: a 3×3 cell-centered grid with a 2×2
vertex-centered bathymetry grid, unit cells, elevation range [0, 10]. -/
def wState : ClientState :=
  { gridSize := (3, 3)
    cellSize := (1, 1)
    bathymetrySize := (2, 2)
    elevationRange := (0, 10)
    bathymetry := fun _ => [0, 65535, 100, 200]
    waterLevel := fun _ => [0, 1, 2, 3, 4, 5, 6, 7, 8]
    snowHeight := fun _ => [8, 7, 6, 5, 4, 3, 2, 1, 0]
    currentBuffer := 0
    grids := tbInit
    pipe := [[1], [2], [3]] }

lemma getD_map (f : ℕ → ℚ) (l : List ℕ) (i : ℕ) (h : i < l.length) :
    (l.map f).getD i 0 = f (l.getD i 0) := by
  simp [List.getD_eq_getElem?_getD, List.getElem?_eq_getElem, h]

lemma postNewValue_mostRecent {α : Type} (tb : TripleBuffer α) (v : α) :
    (tb.postNewValue v).buffer ((tb.postNewValue v).mostRecentBuffer) = v := by
  simp [TripleBuffer.postNewValue, TripleBuffer.writeSlot, TripleBuffer.postSlot]

lemma unquantizeGrids_published (s : ClientState) :
    (unquantizeGrids s).grids.buffer ((unquantizeGrids s).grids.mostRecentBuffer) =
      { bathymetry := (s.bathymetry s.currentBuffer).map (unquantizePixel s.elevationRange)
        waterLevel := (s.waterLevel s.currentBuffer).map (unquantizePixel s.elevationRange)
        snowHeight := (s.snowHeight s.currentBuffer).map (unquantizePixel s.elevationRange) :
        GridBuffers } := by
  unfold unquantizeGrids
  exact postNewValue_mostRecent _ _

/-! ## Claim theorems -/

/-- C2: during connect the client writes the token `0x12345678`; a reply of
`0x78563412` enables swap-on-read, a reply of `0x12345678` proceeds without
swapping, and any other reply makes the connect operation fail, so that no
usable session is established. -/
theorem handshake_token_decision :
    sentToken = 0x12345678 ∧
    negotiateSwap 0x78563412 = some true ∧
    negotiateSwap 0x12345678 = some false ∧
    (∀ r : ℕ, r ≠ 0x78563412 → r ≠ 0x12345678 → negotiateSwap r = none) ∧
    (∀ r gs cs er fb fw fs rest tb0, r ≠ 0x78563412 → r ≠ 0x12345678 →
      connect r gs cs er fb fw fs rest tb0 = none) := by
  refine ⟨rfl, rfl, rfl, ?_, ?_⟩
  · intro r h1 h2
    simp [negotiateSwap, h1, h2]
  · intro r gs cs er fb fw fs rest tb0 h1 h2
    simp [connect, negotiateSwap, h1, h2]

/-- Witness for C2 at the concrete reply value 99. -/
theorem handshake_token_decision_witness :
    (99 : ℕ) ≠ 0x78563412 ∧ (99 : ℕ) ≠ 0x12345678 ∧
    negotiateSwap 99 = none ∧
    connect 99 (3, 3) (1, 1) (0, 10) [] [] [] [] tbInit = none :=
  ⟨by decide, by decide,
   handshake_token_decision.2.2.2.1 99 (by decide) (by decide),
   handshake_token_decision.2.2.2.2 99 (3, 3) (1, 1) (0, 10) [] [] [] [] tbInit
     (by decide) (by decide)⟩

/-- C3: every pixel `p` of each of the three grids is published by
`unquantizeGrids` as `p * (elevationRange[1]-elevationRange[0]) / 65535 +
elevationRange[0]`, with the single session elevation range applied
identically to bathymetry, water level and snow height. -/
theorem unquantize_affine_published (s : ClientState) (i : ℕ) :
    (i < (s.bathymetry s.currentBuffer).length →
      ((unquantizeGrids s).grids.buffer
          ((unquantizeGrids s).grids.mostRecentBuffer)).bathymetry.getD i 0 =
        ((s.bathymetry s.currentBuffer).getD i 0 : ℚ) *
          (s.elevationRange.2 - s.elevationRange.1) / 65535 + s.elevationRange.1) ∧
    (i < (s.waterLevel s.currentBuffer).length →
      ((unquantizeGrids s).grids.buffer
          ((unquantizeGrids s).grids.mostRecentBuffer)).waterLevel.getD i 0 =
        ((s.waterLevel s.currentBuffer).getD i 0 : ℚ) *
          (s.elevationRange.2 - s.elevationRange.1) / 65535 + s.elevationRange.1) ∧
    (i < (s.snowHeight s.currentBuffer).length →
      ((unquantizeGrids s).grids.buffer
          ((unquantizeGrids s).grids.mostRecentBuffer)).snowHeight.getD i 0 =
        ((s.snowHeight s.currentBuffer).getD i 0 : ℚ) *
          (s.elevationRange.2 - s.elevationRange.1) / 65535 + s.elevationRange.1) := by
  rw [unquantizeGrids_published]
  refine ⟨fun h => ?_, fun h => ?_, fun h => ?_⟩ <;>
    · rw [getD_map _ _ _ h, unquantizePixel]
      ring

/-- Witness for C3 on the concrete session `wState`: the bathymetry pixel
65535 publishes as 10, the water level pixel 1 as 10/65535·1, the snow pixel
8 as 80/65535. -/
theorem unquantize_affine_published_witness :
    (1 < (wState.bathymetry wState.currentBuffer).length ∧
      ((unquantizeGrids wState).grids.buffer
          ((unquantizeGrids wState).grids.mostRecentBuffer)).bathymetry.getD 1 0 =
        ((wState.bathymetry wState.currentBuffer).getD 1 0 : ℚ) *
          (wState.elevationRange.2 - wState.elevationRange.1) / 65535 +
          wState.elevationRange.1) ∧
    ((unquantizeGrids wState).grids.buffer
        ((unquantizeGrids wState).grids.mostRecentBuffer)).bathymetry.getD 1 0 = 10 :=
  ⟨⟨by decide, (unquantize_affine_published wState 1).1 (by decide)⟩, by
    rw [unquantizeGrids_published]
    norm_num [wState, unquantizePixel]⟩

/-- C7 counterexample: the origin offset subtracted by the vertex-centered
bathymetry grid (1) is not one full cell larger than the offset subtracted
by the cell-centered grids (1/2): already at cell size 1 and position 0 the
two grid coordinates differ by 1/2, not by 1. -/
theorem grid_offset_one_cell_counterexample :
    bathymetryOffset ≠ cellCenteredOffset + 1 ∧
    toGridCoord 1 bathymetryOffset 0 ≠ toGridCoord 1 cellCenteredOffset 0 - 1 := by
  constructor <;> norm_num [toGridCoord, bathymetryOffset, cellCenteredOffset]

/-- C7 amended: each query converts a world coordinate to grid coordinates
by dividing by the cell size and subtracting the grid's origin offset, and
the offset used by the vertex-centered bathymetry grid is half a cell larger
than the offset used by the cell-centered water-level and snow-height
grids. -/
theorem grid_offset_half_cell (cs x : ℚ) :
    toGridCoord cs bathymetryOffset x = x / cs - bathymetryOffset ∧
    toGridCoord cs cellCenteredOffset x = x / cs - cellCenteredOffset ∧
    bathymetryOffset = cellCenteredOffset + 1 / 2 ∧
    toGridCoord cs bathymetryOffset x = toGridCoord cs cellCenteredOffset x - 1 / 2 := by
  refine ⟨rfl, rfl, by norm_num [bathymetryOffset, cellCenteredOffset], ?_⟩
  simp only [toGridCoord, bathymetryOffset, cellCenteredOffset]
  ring

lemma runSandbox_stopped (evs : List SandboxEvent) :
    ∀ sc : SandboxClient, sc.connected = false →
      (runSandbox sc evs).connected = false ∧
      (sc.listenerRegistered = false → (runSandbox sc evs).listenerRegistered = false) ∧
      (runSandbox sc evs).sentViewerMessages = sc.sentViewerMessages := by
  induction evs with
  | nil => intro sc h; exact ⟨h, fun hl => hl, rfl⟩
  | cons e evs ih =>
    intro sc h
    cases e with
    | frame ok =>
      have hstep : sandboxStep sc (.frame ok) = sc := by
        simp [sandboxStep, frameSend, h]
      rw [runSandbox, hstep]
      exact ih sc h
    | serverMessage ok =>
      rw [runSandbox]
      by_cases hl : sc.listenerRegistered
      · cases ok with
        | true =>
          have hstep : sandboxStep sc (.serverMessage true) = sc := by
            simp [sandboxStep, serverMessageCallback, hl]
          rw [hstep]; exact ih sc h
        | false =>
          have hstep : sandboxStep sc (.serverMessage false) =
              { sc with listenerRegistered := false, connected := false } := by
            simp [sandboxStep, serverMessageCallback, hl]
          rw [hstep]
          obtain ⟨h1, h2, h3⟩ :=
            ih { sc with listenerRegistered := false, connected := false } rfl
          exact ⟨h1, fun _ => h2 rfl, h3⟩
      · have hstep : sandboxStep sc (.serverMessage ok) = sc := by
          simp [sandboxStep, hl]
        rw [hstep]; exact ih sc h

/-- C9: when `processUpdate` fails during a streaming update, the readiness
callback removes its I/O event listener and clears the connected flag, and
no later frame-loop iteration ever sends another viewer-pose message (nor
re-registers the listener or reconnects). -/
theorem update_failure_disconnects (sc : SandboxClient) (evs : List SandboxEvent) :
    (serverMessageCallback sc false).listenerRegistered = false ∧
    (serverMessageCallback sc false).connected = false ∧
    (runSandbox (serverMessageCallback sc false) evs).connected = false ∧
    (runSandbox (serverMessageCallback sc false) evs).listenerRegistered = false ∧
    (runSandbox (serverMessageCallback sc false) evs).sentViewerMessages =
      sc.sentViewerMessages := by
  have hcb : serverMessageCallback sc false =
      { sc with listenerRegistered := false, connected := false } := by
    simp [serverMessageCallback]
  obtain ⟨h1, h2, h3⟩ := runSandbox_stopped evs (serverMessageCallback sc false)
    (by rw [hcb])
  refine ⟨by rw [hcb], by rw [hcb], h1, h2 (by rw [hcb]), by rw [h3, hcb]⟩

/-- A degenerate session with zero cell size: the handshake invariant
`bathymetrySize = gridSize - 1` and `gridSize ≥ 2` hold, but both domains
collapse to a single point. -/
def degenState : ClientState :=
  { wState with cellSize := (0, 0) }

/-- C10 counterexample: for the session `degenState`, which satisfies
`bathymetrySize[i] = gridSize[i] - 1` and `gridSize[i] ≥ 2`, the bathymetry
domain is not strictly contained in the cell-centered domain (both are the
degenerate point interval `[0,0]` on each axis because the cell size is
zero). -/
theorem domain_containment_counterexample :
    degenState.bathymetrySize.1 = degenState.gridSize.1 - 1 ∧
    degenState.bathymetrySize.2 = degenState.gridSize.2 - 1 ∧
    2 ≤ degenState.gridSize.1 ∧ 2 ≤ degenState.gridSize.2 ∧
    ¬((getDomain degenState).1.1 < (getBathymetryDomain degenState).1.1 ∧
      (getBathymetryDomain degenState).2.1 < (getDomain degenState).2.1 ∧
      (getDomain degenState).1.2 < (getBathymetryDomain degenState).1.2 ∧
      (getBathymetryDomain degenState).2.2 < (getDomain degenState).2.2) := by
  refine ⟨by decide, by decide, by decide, by decide, ?_⟩
  norm_num [getDomain, getBathymetryDomain, degenState, wState]

/-- C10 amended: `getDomain` returns per axis the interval
`[0.5*cellSize[i], (gridSize[i]-0.5)*cellSize[i]]` and
`getBathymetryDomain` the interval
`[cellSize[i], bathymetrySize[i]*cellSize[i]]`; whenever
`bathymetrySize[i] = gridSize[i]-1`, `gridSize[i] ≥ 2` and `cellSize[i] > 0`,
the bathymetry domain is strictly contained in the cell-centered domain. -/
theorem domain_formulas_and_containment (s : ClientState) :
    (getDomain s).1.1 = (1 / 2) * s.cellSize.1 ∧
    (getDomain s).1.2 = (1 / 2) * s.cellSize.2 ∧
    (getDomain s).2.1 = ((s.gridSize.1 : ℚ) - 1 / 2) * s.cellSize.1 ∧
    (getDomain s).2.2 = ((s.gridSize.2 : ℚ) - 1 / 2) * s.cellSize.2 ∧
    (getBathymetryDomain s).1.1 = s.cellSize.1 ∧
    (getBathymetryDomain s).1.2 = s.cellSize.2 ∧
    (getBathymetryDomain s).2.1 = (s.bathymetrySize.1 : ℚ) * s.cellSize.1 ∧
    (getBathymetryDomain s).2.2 = (s.bathymetrySize.2 : ℚ) * s.cellSize.2 ∧
    (s.bathymetrySize.1 = s.gridSize.1 - 1 → s.bathymetrySize.2 = s.gridSize.2 - 1 →
      2 ≤ s.gridSize.1 → 2 ≤ s.gridSize.2 →
      0 < s.cellSize.1 → 0 < s.cellSize.2 →
      (getDomain s).1.1 < (getBathymetryDomain s).1.1 ∧
      (getBathymetryDomain s).2.1 < (getDomain s).2.1 ∧
      (getDomain s).1.2 < (getBathymetryDomain s).1.2 ∧
      (getBathymetryDomain s).2.2 < (getDomain s).2.2) := by
  refine ⟨rfl, rfl, rfl, rfl, rfl, rfl, rfl, rfl, ?_⟩
  intro hb1 hb2 hg1 hg2 hc1 hc2
  have e1 : (s.bathymetrySize.1 : ℚ) = (s.gridSize.1 : ℚ) - 1 := by
    rw [hb1]; push_cast [Nat.cast_sub (by omega : 1 ≤ s.gridSize.1)]; ring
  have e2 : (s.bathymetrySize.2 : ℚ) = (s.gridSize.2 : ℚ) - 1 := by
    rw [hb2]; push_cast [Nat.cast_sub (by omega : 1 ≤ s.gridSize.2)]; ring
  have g1 : (2 : ℚ) ≤ (s.gridSize.1 : ℚ) := by exact_mod_cast hg1
  have g2 : (2 : ℚ) ≤ (s.gridSize.2 : ℚ) := by exact_mod_cast hg2
  refine ⟨?_, ?_, ?_, ?_⟩ <;>
    simp only [getDomain, getBathymetryDomain, e1, e2] <;> nlinarith

/-- Witness for C10 (amended) on the concrete session `wState`. -/
theorem domain_formulas_and_containment_witness :
    (wState.bathymetrySize.1 = wState.gridSize.1 - 1 ∧
      wState.bathymetrySize.2 = wState.gridSize.2 - 1 ∧
      2 ≤ wState.gridSize.1 ∧ 2 ≤ wState.gridSize.2 ∧
      0 < wState.cellSize.1 ∧ 0 < wState.cellSize.2) ∧
    ((getDomain wState).1.1 < (getBathymetryDomain wState).1.1 ∧
      (getBathymetryDomain wState).2.1 < (getDomain wState).2.1 ∧
      (getDomain wState).1.2 < (getBathymetryDomain wState).1.2 ∧
      (getBathymetryDomain wState).2.2 < (getDomain wState).2.2) :=
  ⟨⟨by decide, by decide, by decide, by decide, by norm_num [wState], by norm_num [wState]⟩,
   (domain_formulas_and_containment wState).2.2.2.2.2.2.2.2
     (by decide) (by decide) (by decide) (by decide)
     (by norm_num [wState]) (by norm_num [wState])⟩

lemma fin2_sub_ne : ∀ b : Fin 2, 1 - b ≠ b := by decide

lemma fin2_sub_sub : ∀ b : Fin 2, 1 - (1 - b) = b := by decide

/-- C1: each `processUpdate` call decodes exactly one triplet of inter-coded
grids in the fixed order bathymetry, water level, snow height (the first
three frames of the stream, in that order), each using the stored previous
quantized grid as decode reference; the current-buffer index then flips to
the just-written buffer, so the newly decoded grids are the stored previous
grids for the next update, and only then are the grids unquantized and
published. -/
theorem processUpdate_decodes_one_triplet (s : ClientState) (fb fw fs : List ℕ)
    (rest : List (List ℕ)) (hp : s.pipe = fb :: fw :: fs :: rest) :
    ∃ s', processUpdate s = some s' ∧
      s'.currentBuffer = 1 - s.currentBuffer ∧
      s'.bathymetry s'.currentBuffer =
        interDecode (volume s.bathymetrySize) (s.bathymetry s.currentBuffer) fb ∧
      s'.waterLevel s'.currentBuffer =
        interDecode (volume s.gridSize) (s.waterLevel s.currentBuffer) fw ∧
      s'.snowHeight s'.currentBuffer =
        interDecode (volume s.gridSize) (s.snowHeight s.currentBuffer) fs ∧
      s'.bathymetry (1 - s'.currentBuffer) = s.bathymetry s.currentBuffer ∧
      s'.waterLevel (1 - s'.currentBuffer) = s.waterLevel s.currentBuffer ∧
      s'.snowHeight (1 - s'.currentBuffer) = s.snowHeight s.currentBuffer ∧
      s'.pipe = rest ∧
      s'.grids = s.grids.postNewValue
        { bathymetry :=
            (s'.bathymetry s'.currentBuffer).map (unquantizePixel s.elevationRange)
          waterLevel :=
            (s'.waterLevel s'.currentBuffer).map (unquantizePixel s.elevationRange)
          snowHeight :=
            (s'.snowHeight s'.currentBuffer).map (unquantizePixel s.elevationRange) } := by
  have hne : s.currentBuffer ≠ 1 - s.currentBuffer := (fin2_sub_ne s.currentBuffer).symm
  unfold processUpdate
  rw [hp]
  refine ⟨_, rfl, rfl, ?_, ?_, ?_, ?_, ?_, ?_, rfl, ?_⟩ <;>
    simp [unquantizeGrids, fin2_sub_sub, Function.update_same, Function.update_noteq hne]

/-- Witness for C1 on the concrete session `wState`, whose stream holds the
frame triplet `[1]`, `[2]`, `[3]`. -/
theorem processUpdate_decodes_one_triplet_witness :
    wState.pipe = [1] :: [2] :: [3] :: [] ∧
    (∃ s', processUpdate wState = some s' ∧
      s'.currentBuffer = 1 - wState.currentBuffer ∧
      s'.bathymetry s'.currentBuffer =
        interDecode (volume wState.bathymetrySize) (wState.bathymetry wState.currentBuffer) [1] ∧
      s'.waterLevel s'.currentBuffer =
        interDecode (volume wState.gridSize) (wState.waterLevel wState.currentBuffer) [2] ∧
      s'.snowHeight s'.currentBuffer =
        interDecode (volume wState.gridSize) (wState.snowHeight wState.currentBuffer) [3] ∧
      s'.bathymetry (1 - s'.currentBuffer) = wState.bathymetry wState.currentBuffer ∧
      s'.waterLevel (1 - s'.currentBuffer) = wState.waterLevel wState.currentBuffer ∧
      s'.snowHeight (1 - s'.currentBuffer) = wState.snowHeight wState.currentBuffer ∧
      s'.pipe = [] ∧
      s'.grids = wState.grids.postNewValue
        { bathymetry :=
            (s'.bathymetry s'.currentBuffer).map (unquantizePixel wState.elevationRange)
          waterLevel :=
            (s'.waterLevel s'.currentBuffer).map (unquantizePixel wState.elevationRange)
          snowHeight :=
            (s'.snowHeight s'.currentBuffer).map (unquantizePixel wState.elevationRange) }) :=
  ⟨rfl, processUpdate_decodes_one_triplet wState [1] [2] [3] [] rfl⟩

/-- C8: the state established at handshake satisfies
`bathymetrySize[i] = gridSize[i] - 1` (the constructor computes it in
unsigned 32-bit arithmetic), and `gridSize`, `bathymetrySize`, `cellSize`
and `elevationRange` are never modified by `processUpdate`,
`unquantizeGrids` or `lockNewGrids` (the spatial queries are pure and
cannot modify the session state). -/
theorem session_geometry_fixed :
    (∀ token gs cs er fb fw fs rest tb0 s,
      connect token gs cs er fb fw fs rest tb0 = some s →
      s.gridSize = gs ∧ s.cellSize = cs ∧ s.elevationRange = er ∧
      s.bathymetrySize = (wrapSub1 gs.1, wrapSub1 gs.2) ∧
      (1 ≤ gs.1 → gs.1 < 4294967296 → s.bathymetrySize.1 = gs.1 - 1) ∧
      (1 ≤ gs.2 → gs.2 < 4294967296 → s.bathymetrySize.2 = gs.2 - 1)) ∧
    (∀ s s', processUpdate s = some s' →
      s'.gridSize = s.gridSize ∧ s'.bathymetrySize = s.bathymetrySize ∧
      s'.cellSize = s.cellSize ∧ s'.elevationRange = s.elevationRange) ∧
    (∀ s, (unquantizeGrids s).gridSize = s.gridSize ∧
      (unquantizeGrids s).bathymetrySize = s.bathymetrySize ∧
      (unquantizeGrids s).cellSize = s.cellSize ∧
      (unquantizeGrids s).elevationRange = s.elevationRange) ∧
    (∀ s, ((lockNewGrids s).2).gridSize = s.gridSize ∧
      ((lockNewGrids s).2).bathymetrySize = s.bathymetrySize ∧
      ((lockNewGrids s).2).cellSize = s.cellSize ∧
      ((lockNewGrids s).2).elevationRange = s.elevationRange) := by
  refine ⟨?_, ?_, ?_, ?_⟩
  · intro token gs cs er fb fw fs rest tb0 s h
    cases hneg : negotiateSwap token with
    | none => simp [connect, hneg] at h
    | some sw =>
      simp only [connect, hneg, Option.some.injEq] at h
      subst h
      refine ⟨rfl, rfl, rfl, rfl, fun h1 h2 => ?_, fun h1 h2 => ?_⟩ <;>
        · show wrapSub1 _ = _
          unfold wrapSub1
          omega
  · intro s s' h
    unfold processUpdate at h
    split at h
    · simp only [Option.some.injEq] at h
      subst h
      exact ⟨rfl, rfl, rfl, rfl⟩
    · exact absurd h (by simp)
  · intro s; exact ⟨rfl, rfl, rfl, rfl⟩
  · intro s; exact ⟨rfl, rfl, rfl, rfl⟩

/-- The concrete session produced by a successful connect with token
`0x12345678`, a 3×3 grid, unit cells, elevation range [0, 10] and empty
initial frames. -/
def wConnected : ClientState :=
  (connect 0x12345678 (3, 3) (1, 1) (0, 10) [] [] [] [] tbInit).getD wState

/-- Witness for C8: the concrete connect call succeeds and establishes a
2×2 bathymetry grid for the 3×3 cell-centered grid. -/
theorem session_geometry_fixed_witness :
    connect 0x12345678 (3, 3) (1, 1) (0, 10) [] [] [] [] tbInit = some wConnected ∧
    wConnected.gridSize = (3, 3) ∧
    wConnected.bathymetrySize.1 = 2 ∧ wConnected.bathymetrySize.2 = 2 := by
  have h := session_geometry_fixed.1 0x12345678 (3, 3) (1, 1) (0, 10) [] [] [] []
    tbInit wConnected rfl
  exact ⟨rfl, h.1, h.2.2.2.2.1 (by decide) (by decide), h.2.2.2.2.2 (by decide) (by decide)⟩

lemma fin3_next_ne : ∀ a b : Fin 3,
    (if a + 1 = b then a + 2 else a + 1) ≠ a ∧
    (if a + 1 = b then a + 2 else a + 1) ≠ b := by decide

lemma nextSlot_ne {α : Type} (tb : TripleBuffer α) :
    tb.nextSlot ≠ tb.lockedBuffer ∧ tb.nextSlot ≠ tb.mostRecentBuffer :=
  fin3_next_ne tb.lockedBuffer tb.mostRecentBuffer

lemma postNewValue_buffer_cases {α : Type} (tb : TripleBuffer α) (v : α) (i : Fin 3) :
    (tb.postNewValue v).buffer i = v ∨ (tb.postNewValue v).buffer i = tb.buffer i := by
  by_cases h : i = tb.nextSlot
  · subst h
    left
    simp [TripleBuffer.postNewValue, TripleBuffer.writeSlot, TripleBuffer.postSlot]
  · right
    simp [TripleBuffer.postNewValue, TripleBuffer.writeSlot, TripleBuffer.postSlot,
      Function.update_noteq h]

lemma lockNewValue_buffer {α : Type} (tb : TripleBuffer α) (i : Fin 3) :
    ((tb.lockNewValue).2).buffer i = tb.buffer i := by
  unfold TripleBuffer.lockNewValue
  split <;> rfl

lemma runGridEvents_buffer_mem (evs : List GridEvent) :
    ∀ (tb : TripleBuffer GridBuffers) (i : Fin 3),
      (runGridEvents tb evs).buffer i ∈
        ([tb.buffer 0, tb.buffer 1, tb.buffer 2] ++ publishedValues evs) := by
  induction evs with
  | nil =>
    intro tb i
    fin_cases i <;> simp [runGridEvents, publishedValues]
  | cons e evs ih =>
    intro tb i
    cases e with
    | publish v =>
      have h := ih (tb.postNewValue v) i
      have hgoal : runGridEvents tb (.publish v :: evs) =
          runGridEvents (tb.postNewValue v) evs := rfl
      have hpub : publishedValues (.publish v :: evs) = v :: publishedValues evs := rfl
      rw [hgoal, hpub]
      simp only [List.mem_append, List.mem_cons, List.not_mem_nil, or_false] at h ⊢
      rcases h with (h | h | h) | h
      · rcases postNewValue_buffer_cases tb v 0 with hc | hc <;> rw [hc] at h <;> tauto
      · rcases postNewValue_buffer_cases tb v 1 with hc | hc <;> rw [hc] at h <;> tauto
      · rcases postNewValue_buffer_cases tb v 2 with hc | hc <;> rw [hc] at h <;> tauto
      · tauto
    | lock =>
      have h := ih ((tb.lockNewValue).2) i
      have hgoal : runGridEvents tb (.lock :: evs) =
          runGridEvents ((tb.lockNewValue).2) evs := rfl
      have hpub : publishedValues (.lock :: evs) = publishedValues evs := rfl
      rw [hgoal, hpub]
      simpa [lockNewValue_buffer] using h

/-- C4: `unquantizeGrids` starts a fresh slot (distinct from the locked and
the most recent ones), fills all three component grids completely from the
current quantized grids, and only then posts it; a publish never changes
the reader's locked value; a reader that locks twice without an intervening
post sees `false` the second time and the identical triplet; and after any
sequence of publishes and locks, the locked value is one entire triplet —
either an initial slot content or one complete published triplet, never a
mix. -/
theorem triple_buffer_atomic_publish :
    (∀ tb : TripleBuffer GridBuffers,
      tb.nextSlot ≠ tb.lockedBuffer ∧ tb.nextSlot ≠ tb.mostRecentBuffer) ∧
    (∀ s : ClientState,
      (unquantizeGrids s).grids = s.grids.postNewValue
        { bathymetry := (s.bathymetry s.currentBuffer).map (unquantizePixel s.elevationRange)
          waterLevel := (s.waterLevel s.currentBuffer).map (unquantizePixel s.elevationRange)
          snowHeight := (s.snowHeight s.currentBuffer).map (unquantizePixel s.elevationRange) } ∧
      (unquantizeGrids s).grids.buffer ((unquantizeGrids s).grids.mostRecentBuffer) =
        { bathymetry := (s.bathymetry s.currentBuffer).map (unquantizePixel s.elevationRange)
          waterLevel := (s.waterLevel s.currentBuffer).map (unquantizePixel s.elevationRange)
          snowHeight := (s.snowHeight s.currentBuffer).map (unquantizePixel s.elevationRange) }) ∧
    (∀ (tb : TripleBuffer GridBuffers) (v : GridBuffers),
      (tb.postNewValue v).getLockedValue = tb.getLockedValue) ∧
    (∀ s : ClientState,
      (lockNewGrids ((lockNewGrids s).2)).1 = false ∧
      ((lockNewGrids ((lockNewGrids s).2)).2).grids.getLockedValue =
        ((lockNewGrids s).2).grids.getLockedValue) ∧
    (∀ (tb : TripleBuffer GridBuffers) (evs : List GridEvent),
      (runGridEvents tb evs).getLockedValue ∈
        ([tb.buffer 0, tb.buffer 1, tb.buffer 2] ++ publishedValues evs)) := by
  refine ⟨nextSlot_ne, ?_, ?_, ?_, ?_⟩
  · intro s
    exact ⟨rfl, unquantizeGrids_published s⟩
  · intro tb v
    have h := Ne.symm (nextSlot_ne tb).1
    simp [TripleBuffer.postNewValue, TripleBuffer.writeSlot, TripleBuffer.postSlot,
      TripleBuffer.getLockedValue, Function.update_noteq h]
  · intro s
    have hlock : (((lockNewGrids s).2).grids).lockedBuffer =
        (((lockNewGrids s).2).grids).mostRecentBuffer := by
      show ((s.grids.lockNewValue).2).lockedBuffer = ((s.grids.lockNewValue).2).mostRecentBuffer
      unfold TripleBuffer.lockNewValue
      split
      · assumption
      · rfl
    have hval : (((lockNewGrids s).2).grids).lockNewValue =
        (false, ((lockNewGrids s).2).grids) := by
      unfold TripleBuffer.lockNewValue
      rw [if_pos hlock]
    constructor
    · show ((((lockNewGrids s).2).grids).lockNewValue).1 = false
      rw [hval]
    · show (((((lockNewGrids s).2).grids).lockNewValue).2).buffer
          (((((lockNewGrids s).2).grids).lockNewValue).2).lockedBuffer =
        (((lockNewGrids s).2).grids).buffer (((lockNewGrids s).2).grids).lockedBuffer
      rw [hval]
  · intro tb evs
    exact runGridEvents_buffer_mem evs tb (runGridEvents tb evs).lockedBuffer

lemma cellIndex_bounds (dim : ℕ) (d : ℚ) (h : 2 ≤ dim) :
    0 ≤ cellIndex dim d ∧ cellIndex dim d ≤ (dim : ℤ) - 2 := by
  unfold cellIndex clampI
  split_ifs <;> omega

lemma cellWeight_bounds (dim : ℕ) (d : ℚ) :
    0 ≤ cellWeight dim d ∧ cellWeight dim d ≤ 1 := by
  unfold cellWeight clampS
  split_ifs with h1 h2
  · exact ⟨le_refl 0, by norm_num⟩
  · exact ⟨by norm_num, le_refl 1⟩
  · exact ⟨not_lt.1 h1, not_lt.1 h2⟩

lemma stencil_index_lt (W H : ℕ) (gx gy : ℤ) (hW : 2 ≤ W) (hH : 2 ≤ H)
    (hgx : 0 ≤ gx ∧ gx ≤ (W : ℤ) - 2) (hgy : 0 ≤ gy ∧ gy ≤ (H : ℤ) - 2) :
    gy.toNat * W + gx.toNat + W + 1 < W * H := by
  have h1 : gx.toNat ≤ W - 2 := by omega
  have h2 : gy.toNat + 2 ≤ H := by omega
  calc gy.toNat * W + gx.toNat + W + 1 < gy.toNat * W + 2 * W := by omega
    _ = (gy.toNat + 2) * W := by ring
    _ ≤ H * W := Nat.mul_le_mul_right W h2
    _ = W * H := Nat.mul_comm H W

lemma gridInterp_append (grid junk : List ℚ) (W H : ℕ) (cs : ℚ × ℚ) (off x y : ℚ)
    (hW : 2 ≤ W) (hH : 2 ≤ H) (hlen : grid.length = W * H) :
    gridInterp (grid ++ junk) (W, H) cs off x y = gridInterp grid (W, H) cs off x y := by
  have hgx := cellIndex_bounds W (toGridCoord cs.1 off x) hW
  have hgy := cellIndex_bounds H (toGridCoord cs.2 off y) hH
  have hmax := stencil_index_lt W H _ _ hW hH hgx hgy
  simp only [gridInterp]
  rw [List.getD_append _ _ _ _ (by omega : _ < grid.length),
    List.getD_append _ _ _ _ (by omega : _ < grid.length),
    List.getD_append _ _ _ _ (by omega : _ < grid.length),
    List.getD_append _ _ _ _ (by omega : _ < grid.length)]

/-- C5: in each of the three interpolation queries, the per-axis cell index
is clamped to `[0, dimension-2]` and the fractional weight to `[0, 1]`; the
largest flat index the 2×2 stencil can touch is therefore inside the grid,
so the query result never depends on storage beyond the grid (appending
arbitrary extra storage does not change any query result, for positions
arbitrarily far outside the domain as well). -/
theorem interpolation_stencil_clamped :
    (∀ (dim : ℕ) (d : ℚ), 2 ≤ dim →
      0 ≤ cellIndex dim d ∧ cellIndex dim d ≤ (dim : ℤ) - 2) ∧
    (∀ (dim : ℕ) (d : ℚ), 0 ≤ cellWeight dim d ∧ cellWeight dim d ≤ 1) ∧
    (∀ (W H : ℕ) (x y cs1 cs2 off : ℚ), 2 ≤ W → 2 ≤ H →
      (cellIndex H (toGridCoord cs2 off y)).toNat * W +
        (cellIndex W (toGridCoord cs1 off x)).toNat + W + 1 < W * H) ∧
    (∀ (grid junk : List ℚ) (W H : ℕ) (cs : ℚ × ℚ) (off x y : ℚ),
      2 ≤ W → 2 ≤ H → grid.length = W * H →
      gridInterp (grid ++ junk) (W, H) cs off x y =
        gridInterp grid (W, H) cs off x y) := by
  refine ⟨fun dim d h => cellIndex_bounds dim d h,
    fun dim d => cellWeight_bounds dim d, ?_, ?_⟩
  · intro W H x y cs1 cs2 off hW hH
    exact stencil_index_lt W H _ _ hW hH
      (cellIndex_bounds W (toGridCoord cs1 off x) hW)
      (cellIndex_bounds H (toGridCoord cs2 off y) hH)
  · intro grid junk W H cs off x y hW hH hlen
    exact gridInterp_append grid junk W H cs off x y hW hH hlen

/-- Witness for C5: a 2×2 grid queried far outside its domain; appending
junk storage does not change the result, and the index/weight clamps hold
at a concrete out-of-range coordinate. -/
theorem interpolation_stencil_clamped_witness :
    ((2 : ℕ) ≤ 3 ∧
      (0 ≤ cellIndex 3 100 ∧ cellIndex 3 100 ≤ (3 : ℤ) - 2)) ∧
    (0 ≤ cellWeight 3 100 ∧ cellWeight 3 100 ≤ 1) ∧
    ((2 : ℕ) ≤ 2 ∧ ([(1 : ℚ), 2, 3, 4]).length = 2 * 2 ∧
      gridInterp ([(1 : ℚ), 2, 3, 4] ++ [99]) (2, 2) (1, 1) 1 50 (-50) =
        gridInterp [(1 : ℚ), 2, 3, 4] (2, 2) (1, 1) 1 50 (-50)) :=
  ⟨⟨by decide, interpolation_stencil_clamped.1 3 100 (by decide)⟩,
   interpolation_stencil_clamped.2.1 3 100,
   ⟨by decide, by decide,
    interpolation_stencil_clamped.2.2.2 [(1 : ℚ), 2, 3, 4] [99] 2 2 (1, 1) 1 50 (-50)
      (by decide) (by decide) (by decide)⟩⟩

lemma clampS_lt (v lo hi : ℚ) (h : v < lo) : clampS v lo hi = lo := by
  unfold clampS
  rw [if_pos h]

lemma clampS_gt (v lo hi : ℚ) (h1 : ¬v < lo) (h2 : hi < v) : clampS v lo hi = hi := by
  unfold clampS
  rw [if_neg h1, if_pos h2]

lemma clampS_id (v lo hi : ℚ) (h1 : ¬v < lo) (h2 : ¬hi < v) : clampS v lo hi = v := by
  unfold clampS
  rw [if_neg h1, if_neg h2]

lemma axis_low (dim : ℕ) (h2 : 2 ≤ dim) (d : ℚ) (hd : d ≤ 0) :
    cellIndex dim d = 0 ∧ cellWeight dim d = 0 := by
  have hfl : ⌊d⌋ ≤ 0 := by
    have h := Int.floor_le_floor hd
    simpa using h
  have hidx : cellIndex dim d = 0 := by
    unfold cellIndex clampI
    split_ifs <;> omega
  refine ⟨hidx, ?_⟩
  unfold cellWeight
  rw [hidx]
  have he : d - ((0 : ℤ) : ℚ) = d := by push_cast; ring
  rw [he]
  unfold clampS
  split_ifs with hc1 hc2
  · rfl
  · linarith
  · linarith

lemma axis_high (dim : ℕ) (h2 : 2 ≤ dim) (d : ℚ) (hd : (dim : ℚ) - 1 ≤ d) :
    cellIndex dim d = (dim : ℤ) - 2 ∧ cellWeight dim d = 1 := by
  have hfl : (dim : ℤ) - 1 ≤ ⌊d⌋ := by
    rw [Int.le_floor]
    push_cast
    exact hd
  have hidx : cellIndex dim d = (dim : ℤ) - 2 := by
    unfold cellIndex clampI
    split_ifs <;> omega
  refine ⟨hidx, ?_⟩
  unfold cellWeight
  rw [hidx]
  have he : (((dim : ℤ) - 2 : ℤ) : ℚ) = (dim : ℚ) - 2 := by push_cast; ring
  rw [he]
  have hv : (1 : ℚ) ≤ d - ((dim : ℚ) - 2) := by linarith
  unfold clampS
  split_ifs with hc1 hc2
  · linarith
  · rfl
  · linarith

lemma axis_clamp (dim : ℕ) (h2 : 2 ≤ dim) (d : ℚ) :
    cellIndex dim (clampS d 0 ((dim : ℚ) - 1)) = cellIndex dim d ∧
    cellWeight dim (clampS d 0 ((dim : ℚ) - 1)) = cellWeight dim d := by
  have hd1 : (0 : ℚ) ≤ (dim : ℚ) - 1 := by
    have hq : (2 : ℚ) ≤ (dim : ℚ) := by exact_mod_cast h2
    linarith
  by_cases c1 : d < 0
  · rw [clampS_lt _ _ _ c1]
    obtain ⟨a1, b1⟩ := axis_low dim h2 0 le_rfl
    obtain ⟨a2, b2⟩ := axis_low dim h2 d (le_of_lt c1)
    rw [a1, a2, b1, b2]
    exact ⟨rfl, rfl⟩
  · by_cases c2 : (dim : ℚ) - 1 < d
    · rw [clampS_gt _ _ _ c1 c2]
      obtain ⟨a1, b1⟩ := axis_high dim h2 ((dim : ℚ) - 1) le_rfl
      obtain ⟨a2, b2⟩ := axis_high dim h2 d (le_of_lt c2)
      rw [a1, a2, b1, b2]
      exact ⟨rfl, rfl⟩
    · rw [clampS_id _ _ _ c1 c2]
      exact ⟨rfl, rfl⟩

lemma toGridCoord_clamp (cs off x lo hi : ℚ) (hcs : 0 < cs) :
    toGridCoord cs off (clampS x ((lo + off) * cs) ((hi + off) * cs)) =
      clampS (toGridCoord cs off x) lo hi := by
  have hlo : toGridCoord cs off ((lo + off) * cs) = lo := by
    unfold toGridCoord
    rw [mul_div_cancel_right₀ _ hcs.ne']
    ring
  have hhi : toGridCoord cs off ((hi + off) * cs) = hi := by
    unfold toGridCoord
    rw [mul_div_cancel_right₀ _ hcs.ne']
    ring
  have e1 : x < (lo + off) * cs ↔ toGridCoord cs off x < lo := by
    unfold toGridCoord
    rw [sub_lt_iff_lt_add, div_lt_iff hcs]
  have e2 : (hi + off) * cs < x ↔ hi < toGridCoord cs off x := by
    unfold toGridCoord
    rw [lt_sub_iff_add_lt, lt_div_iff hcs]
  by_cases c1 : x < (lo + off) * cs
  · rw [clampS_lt _ _ _ c1, hlo, clampS_lt _ _ _ (e1.mp c1)]
  · by_cases c2 : (hi + off) * cs < x
    · rw [clampS_gt _ _ _ c1 c2, hhi,
        clampS_gt _ _ _ (fun hlt => c1 (e1.mpr hlt)) (e2.mp c2)]
    · rw [clampS_id _ _ _ c1 c2,
        clampS_id _ _ _ (fun hlt => c1 (e1.mpr hlt)) (fun hgt => c2 (e2.mpr hgt))]

lemma axis_select (dim : ℕ) (i : ℕ) (h2 : 2 ≤ dim) (hi : i < dim) :
    ∃ g : ℕ, (cellIndex dim ((i : ℚ))).toNat = g ∧ g + 1 ≤ dim - 1 ∧
      ∀ f : ℕ → ℚ,
        f g * (1 - cellWeight dim ((i : ℚ))) + f (g + 1) * cellWeight dim ((i : ℚ)) =
          f i := by
  have hfloor : ⌊(i : ℚ)⌋ = (i : ℤ) := Int.floor_natCast i
  by_cases hc : i ≤ dim - 2
  · have hidx : cellIndex dim ((i : ℚ)) = (i : ℤ) := by
      unfold cellIndex clampI
      rw [hfloor]
      split_ifs <;> omega
    have hw : cellWeight dim ((i : ℚ)) = 0 := by
      unfold cellWeight
      rw [hidx]
      have he : (i : ℚ) - (((i : ℤ)) : ℚ) = 0 := by push_cast; ring
      rw [he]
      unfold clampS
      split_ifs <;> first | rfl | linarith
    refine ⟨i, by omega, by omega, fun f => ?_⟩
    rw [hw]
    ring
  · have hieq : i = dim - 1 := by omega
    have hidx : cellIndex dim ((i : ℚ)) = (dim : ℤ) - 2 := by
      unfold cellIndex clampI
      rw [hfloor]
      split_ifs <;> omega
    have hw : cellWeight dim ((i : ℚ)) = 1 := by
      unfold cellWeight
      rw [hidx]
      have he : (i : ℚ) - (((dim : ℤ) - 2 : ℤ) : ℚ) = 1 := by
        have hiq : (i : ℚ) = (dim : ℚ) - 1 := by
          rw [hieq]
          push_cast [Nat.cast_sub (by omega : 1 ≤ dim)]
          ring
        rw [hiq]
        push_cast
        ring
      rw [he]
      unfold clampS
      split_ifs <;> first | rfl | linarith
    refine ⟨dim - 2, by omega, by omega, fun f => ?_⟩
    rw [hw]
    have hg : dim - 2 + 1 = i := by omega
    rw [hg]
    ring

lemma gridInterp_at_sample (grid : List ℚ) (W H : ℕ) (cs : ℚ × ℚ) (off : ℚ)
    (i j : ℕ) (hW : 2 ≤ W) (hH : 2 ≤ H) (hi : i < W) (hj : j < H)
    (hc1 : cs.1 ≠ 0) (hc2 : cs.2 ≠ 0) :
    gridInterp grid (W, H) cs off (((i : ℚ) + off) * cs.1) (((j : ℚ) + off) * cs.2) =
      grid.getD (j * W + i) 0 := by
  have hx : toGridCoord cs.1 off (((i : ℚ) + off) * cs.1) = (i : ℚ) := by
    unfold toGridCoord
    rw [mul_div_cancel_right₀ _ hc1]
    ring
  have hy : toGridCoord cs.2 off (((j : ℚ) + off) * cs.2) = (j : ℚ) := by
    unfold toGridCoord
    rw [mul_div_cancel_right₀ _ hc2]
    ring
  obtain ⟨gx, hgx, hgx1, hfx⟩ := axis_select W i hW hi
  obtain ⟨gy, hgy, hgy1, hfy⟩ := axis_select H j hH hj
  simp only [gridInterp]
  rw [hx, hy, hgx, hgy]
  have e1 : gy * W + gx + 1 = gy * W + (gx + 1) := by omega
  have e2 : gy * W + gx + W = (gy + 1) * W + gx := by ring
  have e3 : (gy + 1) * W + gx + 1 = (gy + 1) * W + (gx + 1) := by omega
  rw [e1, e2, e3]
  have hrow : ∀ r : ℕ,
      grid.getD (r * W + gx) 0 * (1 - cellWeight W ((i : ℚ))) +
        grid.getD (r * W + (gx + 1)) 0 * cellWeight W ((i : ℚ)) =
      grid.getD (r * W + i) 0 :=
    fun r => hfx (fun c => grid.getD (r * W + c) 0)
  rw [hrow gy, hrow (gy + 1)]
  exact hfy (fun r => grid.getD (r * W + i) 0)

lemma gridInterp_clamp (grid : List ℚ) (W H : ℕ) (cs : ℚ × ℚ) (off x y : ℚ)
    (hW : 2 ≤ W) (hH : 2 ≤ H) (hc1 : 0 < cs.1) (hc2 : 0 < cs.2) :
    gridInterp grid (W, H) cs off
        (clampS x ((0 + off) * cs.1) (((W : ℚ) - 1 + off) * cs.1))
        (clampS y ((0 + off) * cs.2) (((H : ℚ) - 1 + off) * cs.2)) =
      gridInterp grid (W, H) cs off x y := by
  have hx := toGridCoord_clamp cs.1 off x 0 ((W : ℚ) - 1) hc1
  have hy := toGridCoord_clamp cs.2 off y 0 ((H : ℚ) - 1) hc2
  have ax := axis_clamp W hW (toGridCoord cs.1 off x)
  have ay := axis_clamp H hH (toGridCoord cs.2 off y)
  simp only [gridInterp]
  rw [hx, hy, ax.1, ax.2, ay.1, ay.2]

/-- C6: querying each spatial interface exactly at a grid sample's world
coordinates returns that sample's stored value, and querying at any
position returns the same value as querying at the per-axis clamp of that
position to the grid's domain (for positions outside the domain this is the
nearest boundary point). -/
theorem query_sample_exact_and_boundary (s : ClientState) (x y : ℚ) (i j : ℕ)
    (hcs1 : 0 < s.cellSize.1) (hcs2 : 0 < s.cellSize.2) :
    (2 ≤ s.bathymetrySize.1 → 2 ≤ s.bathymetrySize.2 →
      (i < s.bathymetrySize.1 → j < s.bathymetrySize.2 →
        calcBathymetry s (((i : ℚ) + bathymetryOffset) * s.cellSize.1)
            (((j : ℚ) + bathymetryOffset) * s.cellSize.2) =
          (s.grids.getLockedValue).bathymetry.getD (j * s.bathymetrySize.1 + i) 0) ∧
      calcBathymetry s x y =
        calcBathymetry s
          (clampS x (getBathymetryDomain s).1.1 (getBathymetryDomain s).2.1)
          (clampS y (getBathymetryDomain s).1.2 (getBathymetryDomain s).2.2)) ∧
    (2 ≤ s.gridSize.1 → 2 ≤ s.gridSize.2 →
      (i < s.gridSize.1 → j < s.gridSize.2 →
        calcWaterLevel s (((i : ℚ) + cellCenteredOffset) * s.cellSize.1)
            (((j : ℚ) + cellCenteredOffset) * s.cellSize.2) =
          (s.grids.getLockedValue).waterLevel.getD (j * s.gridSize.1 + i) 0) ∧
      calcWaterLevel s x y =
        calcWaterLevel s
          (clampS x (getDomain s).1.1 (getDomain s).2.1)
          (clampS y (getDomain s).1.2 (getDomain s).2.2) ∧
      (i < s.gridSize.1 → j < s.gridSize.2 →
        calcSnowHeight s (((i : ℚ) + cellCenteredOffset) * s.cellSize.1)
            (((j : ℚ) + cellCenteredOffset) * s.cellSize.2) =
          (s.grids.getLockedValue).snowHeight.getD (j * s.gridSize.1 + i) 0) ∧
      calcSnowHeight s x y =
        calcSnowHeight s
          (clampS x (getDomain s).1.1 (getDomain s).2.1)
          (clampS y (getDomain s).1.2 (getDomain s).2.2)) := by
  have db1 : (getBathymetryDomain s).1.1 = (0 + bathymetryOffset) * s.cellSize.1 := by
    simp only [getBathymetryDomain, bathymetryOffset]
    ring
  have db2 : (getBathymetryDomain s).2.1 =
      ((s.bathymetrySize.1 : ℚ) - 1 + bathymetryOffset) * s.cellSize.1 := by
    simp only [getBathymetryDomain, bathymetryOffset]
    ring
  have db3 : (getBathymetryDomain s).1.2 = (0 + bathymetryOffset) * s.cellSize.2 := by
    simp only [getBathymetryDomain, bathymetryOffset]
    ring
  have db4 : (getBathymetryDomain s).2.2 =
      ((s.bathymetrySize.2 : ℚ) - 1 + bathymetryOffset) * s.cellSize.2 := by
    simp only [getBathymetryDomain, bathymetryOffset]
    ring
  have dc1 : (getDomain s).1.1 = (0 + cellCenteredOffset) * s.cellSize.1 := by
    simp only [getDomain, cellCenteredOffset]
    ring
  have dc2 : (getDomain s).2.1 =
      ((s.gridSize.1 : ℚ) - 1 + cellCenteredOffset) * s.cellSize.1 := by
    simp only [getDomain, cellCenteredOffset]
    ring
  have dc3 : (getDomain s).1.2 = (0 + cellCenteredOffset) * s.cellSize.2 := by
    simp only [getDomain, cellCenteredOffset]
    ring
  have dc4 : (getDomain s).2.2 =
      ((s.gridSize.2 : ℚ) - 1 + cellCenteredOffset) * s.cellSize.2 := by
    simp only [getDomain, cellCenteredOffset]
    ring
  refine ⟨fun h1 h2 => ⟨fun hi hj => ?_, ?_⟩,
    fun h1 h2 => ⟨fun hi hj => ?_, ?_, fun hi hj => ?_, ?_⟩⟩
  · exact gridInterp_at_sample (s.grids.getLockedValue).bathymetry
      s.bathymetrySize.1 s.bathymetrySize.2 s.cellSize bathymetryOffset i j
      h1 h2 hi hj hcs1.ne' hcs2.ne'
  · rw [db1, db2, db3, db4]
    exact (gridInterp_clamp (s.grids.getLockedValue).bathymetry
      s.bathymetrySize.1 s.bathymetrySize.2 s.cellSize bathymetryOffset x y
      h1 h2 hcs1 hcs2).symm
  · exact gridInterp_at_sample (s.grids.getLockedValue).waterLevel
      s.gridSize.1 s.gridSize.2 s.cellSize cellCenteredOffset i j
      h1 h2 hi hj hcs1.ne' hcs2.ne'
  · rw [dc1, dc2, dc3, dc4]
    exact (gridInterp_clamp (s.grids.getLockedValue).waterLevel
      s.gridSize.1 s.gridSize.2 s.cellSize cellCenteredOffset x y
      h1 h2 hcs1 hcs2).symm
  · exact gridInterp_at_sample (s.grids.getLockedValue).snowHeight
      s.gridSize.1 s.gridSize.2 s.cellSize cellCenteredOffset i j
      h1 h2 hi hj hcs1.ne' hcs2.ne'
  · rw [dc1, dc2, dc3, dc4]
    exact (gridInterp_clamp (s.grids.getLockedValue).snowHeight
      s.gridSize.1 s.gridSize.2 s.cellSize cellCenteredOffset x y
      h1 h2 hcs1 hcs2).symm

/-- A concrete session with a locked triplet of grids, used to exercise the
spatial queries. -/
def wGrids : TripleBuffer GridBuffers :=
  { buffer := fun _ =>
      { bathymetry := [10, 20, 30, 40]
        waterLevel := [0, 1, 2, 3, 4, 5, 6, 7, 8]
        snowHeight := [8, 7, 6, 5, 4, 3, 2, 1, 0] }
    lockedBuffer := 0
    mostRecentBuffer := 0 }

def wLockedState : ClientState := { wState with grids := wGrids }

/-- Witness for C6 on the concrete session `wLockedState`: the bathymetry
sample (0, 1) is read back exactly (value 30), and an out-of-domain query at
(100, -5) equals the query at the domain's nearest boundary point. -/
theorem query_sample_exact_and_boundary_witness :
    (0 < wLockedState.cellSize.1 ∧ 0 < wLockedState.cellSize.2 ∧
      2 ≤ wLockedState.bathymetrySize.1 ∧ 2 ≤ wLockedState.bathymetrySize.2 ∧
      (0 : ℕ) < wLockedState.bathymetrySize.1 ∧ (1 : ℕ) < wLockedState.bathymetrySize.2) ∧
    calcBathymetry wLockedState
        ((((0 : ℕ) : ℚ) + bathymetryOffset) * wLockedState.cellSize.1)
        ((((1 : ℕ) : ℚ) + bathymetryOffset) * wLockedState.cellSize.2) =
      (wLockedState.grids.getLockedValue).bathymetry.getD
        (1 * wLockedState.bathymetrySize.1 + 0) 0 ∧
    (wLockedState.grids.getLockedValue).bathymetry.getD
        (1 * wLockedState.bathymetrySize.1 + 0) 0 = 30 ∧
    calcBathymetry wLockedState 100 (-5) =
      calcBathymetry wLockedState
        (clampS 100 (getBathymetryDomain wLockedState).1.1
          (getBathymetryDomain wLockedState).2.1)
        (clampS (-5) (getBathymetryDomain wLockedState).1.2
          (getBathymetryDomain wLockedState).2.2) ∧
    calcWaterLevel wLockedState 100 (-5) =
      calcWaterLevel wLockedState
        (clampS 100 (getDomain wLockedState).1.1 (getDomain wLockedState).2.1)
        (clampS (-5) (getDomain wLockedState).1.2 (getDomain wLockedState).2.2) := by
  have h := query_sample_exact_and_boundary wLockedState 100 (-5) 0 1
    (by norm_num [wLockedState, wState]) (by norm_num [wLockedState, wState])
  exact ⟨⟨by norm_num [wLockedState, wState], by norm_num [wLockedState, wState],
      by decide, by decide, by decide, by decide⟩,
    (h.1 (by decide) (by decide)).1 (by decide) (by decide),
    rfl,
    (h.1 (by decide) (by decide)).2,
    (h.2 (by decide) (by decide)).2.1⟩

end SARndbox
